import Mathlib

/-!
Verification of the Lindo multi-window session and authentication hand-off
controller (GameWindow auth BrowserView completion flow, cookie/localStorage
transfer, WSA window controller, WSA requirement checks, native window query
helpers).

The definitions below are a shallow embedding of the TypeScript sources:

* `packages/main/windows/game-window.ts` — GameWindow, its
  `setWindowOpenHandler` and `_transferCookies`;
* the extended GameWindow variant (did-navigate handler with three success
  URL patterns, console-message handler with the AUTH success marker,
  `_transferCookies` with localStorage transfer);
* `packages/main/windows/wsa-window.ts` — `WSAWindow.init`,
  `_startWindowChecking`, `_startScreenshotCapture`, `cleanup`;
* `packages/main/utils/window-finder.ts` — `findWindowByTitle`,
  `getWindowRect`, the extended `checkWSARequirements`, and
  `takeDofusTouchScreenshot`;
* `Application.createWSAWindow`.

JavaScript string primitives (`includes`, `startsWith`, `trim`) are modelled
over the character list of a `String`, because those are the exact semantics
the code relies on.  `JSON.parse` is modelled by an executable parser of the
full JSON grammar.  Every other external call (shell execution, Electron
session APIs) is modelled by an explicit input describing its outcome, so
the controller logic itself stays a total executable function.
-/

namespace Lindo

/-- JavaScript-style whitespace test for the characters produced by the
shell helpers (space, newline, carriage return, tab). -/
def charIsWs (c : Char) : Bool := c = ' ' || c = '\n' || c = '\r' || c = '\t'

/-- Trim on a character list: drop leading and trailing whitespace. -/
def listTrim (l : List Char) : List Char :=
  ((l.dropWhile charIsWs).reverse.dropWhile charIsWs).reverse

/-- Model of JavaScript `String.prototype.trim`. -/
def strTrim (s : String) : String := ⟨listTrim s.data⟩

/-- Model of JavaScript `String.prototype.startsWith`. -/
def strStartsWith (s pat : String) : Bool := pat.data.isPrefixOf s.data

/-- Model of JavaScript `String.prototype.includes`: `pat` occurs as a
contiguous substring of `s`. -/
def strContains (s pat : String) : Bool :=
  (List.range (s.data.length + 1)).any (fun i => pat.data.isPrefixOf (s.data.drop i))

/-!
GameWindow authentication-completion machine (extended variant).

The `did-navigate` handler and the `console-message` handler of the auth
BrowserView both run `this._transferCookies().then(() => { if
(this._authBrowserView) { removeBrowserView; null } ; reload() })`.  The
state tracks whether the auth view is live and counts detaches and reloads
of the primary window.  Each completion trigger is modelled as running its
transfer and its `.then` continuation; in the single-threaded event loop the
counts are the same under every interleaving of two triggers, because
`_transferCookies` early-returns on a null view and the `.then` body guards
only the detach, never the reload.
-/

/-- State of one GameWindow controller observed by the completion flow:
whether the auth BrowserView is attached, how many times it was detached
(`removeBrowserView` + null assignment), how many times the primary window
reloaded, and how many transfer passes actually ran. -/
structure AuthCtl where
  authViewLive : Bool
  detachCount : Nat
  reloadCount : Nat
  transferRuns : Nat
  deriving DecidableEq, Repr

/-- Model of one `_transferCookies()` invocation at the state level: the
method early-returns when `_authBrowserView` is null, otherwise it performs
the cookie/storage transfer (counted in `transferRuns`). -/
def transferCookiesRun (s : AuthCtl) : AuthCtl :=
  if s.authViewLive then { s with transferRuns := s.transferRuns + 1 } else s

/-- Model of the `.then` continuation shared by both completion handlers:
`if (this._authBrowserView) { this._win.removeBrowserView(...); this._authBrowserView = null }`
followed by an unconditional `this._win.webContents.reload()`. -/
def completionThen (s : AuthCtl) : AuthCtl :=
  let s1 :=
    if s.authViewLive then
      { s with authViewLive := false, detachCount := s.detachCount + 1 }
    else s
  { s1 with reloadCount := s1.reloadCount + 1 }

/-- One full completion sequence as triggered by a single signal:
`_transferCookies()` then its `.then` continuation. -/
def completionSequence (s : AuthCtl) : AuthCtl :=
  completionThen (transferCookiesRun s)

/-- URL predicate of the `did-navigate` handler:
`url.includes("game.dofus-touch.com") || url.includes("auth-success") ||
url.includes("account.ankama.com/en/ankama/success")`. -/
def navSuccessUrl (url : String) : Bool :=
  strContains url "game.dofus-touch.com" ||
  strContains url "auth-success" ||
  strContains url "account.ankama.com/en/ankama/success"

/-- The `did-navigate` handler: on a success URL it runs the completion
sequence, otherwise it does nothing. -/
def didNavigateHandler (url : String) (s : AuthCtl) : AuthCtl :=
  if navSuccessUrl url then completionSequence s else s

/-- The `console-message` handler: a `close-auth-browser-requested` message
detaches the auth view without reloading; an `AUTH_SUCCESS_DETECTED` message
runs the completion sequence. -/
def consoleMessageHandler (msg : String) (s : AuthCtl) : AuthCtl :=
  let s1 :=
    if strContains msg "close-auth-browser-requested" then
      (if s.authViewLive then
        { s with authViewLive := false, detachCount := s.detachCount + 1 }
      else s)
    else s
  if strContains msg "AUTH_SUCCESS_DETECTED" then completionSequence s1 else s1

theorem completionSequence_dead (s : AuthCtl) (h : s.authViewLive = false) :
    completionSequence s =
      { s with reloadCount := s.reloadCount + 1 } := by
  simp [completionSequence, transferCookiesRun, completionThen, h]

theorem completionSequence_iterate_dead (m : Nat) (s : AuthCtl)
    (h : s.authViewLive = false) :
    completionSequence^[m] s = { s with reloadCount := s.reloadCount + m } := by
  induction m generalizing s with
  | zero => simp
  | succ m ih =>
    rw [Function.iterate_succ_apply, completionSequence_dead s h, ih _ (by simp [h])]
    simp [Nat.add_comm, Nat.add_assoc, Nat.add_left_comm]

/-- C1 (counterexample): with a live AuthSession, firing the
navigation-match signal (`did-navigate` to `https://game.dofus-touch.com/main`)
and then the console signal (`AUTH_SUCCESS_DETECTED: tok`) detaches the
AuthSession once but reloads the primary session TWICE — the claim that the
completion sequence runs exactly once (one reload) is false; there is no
single-flight guard. -/
theorem gameWindow_duplicate_triggers_reload_twice :
    (consoleMessageHandler "AUTH_SUCCESS_DETECTED: tok"
      (didNavigateHandler "https://game.dofus-touch.com/main"
        ⟨true, 0, 0, 0⟩)).detachCount = 1 ∧
    (consoleMessageHandler "AUTH_SUCCESS_DETECTED: tok"
      (didNavigateHandler "https://game.dofus-touch.com/main"
        ⟨true, 0, 0, 0⟩)).reloadCount = 2 ∧
    ¬ (consoleMessageHandler "AUTH_SUCCESS_DETECTED: tok"
      (didNavigateHandler "https://game.dofus-touch.com/main"
        ⟨true, 0, 0, 0⟩)).reloadCount = 1 := by
  refine ⟨by decide, by decide, by decide⟩

/-- C1 (amended): for a controller with a live AuthSession, a burst of `n ≥ 1`
completion triggers detaches the AuthSession exactly once (the null check in
the `.then` continuation guards the detach) but reloads the primary session
exactly `n` times — once per trigger, so two signals give two reloads, not
one; no single-flight guard exists. -/
theorem gameWindow_completion_detach_once_reload_per_trigger
    (s : AuthCtl) (n : Nat) (hlive : s.authViewLive = true) (hn : 1 ≤ n) :
    (completionSequence^[n] s).detachCount = s.detachCount + 1 ∧
    (completionSequence^[n] s).reloadCount = s.reloadCount + n ∧
    (completionSequence^[n] s).authViewLive = false := by
  obtain ⟨m, rfl⟩ : ∃ m, n = m + 1 := ⟨n - 1, by omega⟩
  rw [Function.iterate_succ_apply]
  have hstep : completionSequence s =
      { s with authViewLive := false, detachCount := s.detachCount + 1,
               reloadCount := s.reloadCount + 1,
               transferRuns := s.transferRuns + 1 } := by
    simp [completionSequence, transferCookiesRun, completionThen, hlive]
  rw [hstep, completionSequence_iterate_dead m _ (by simp)]
  refine ⟨by simp, by simp; omega, by simp⟩

/-- C1 (witness): the amended theorem applied at a concrete live controller
and `n = 2` triggers. -/
theorem gameWindow_completion_detach_once_reload_per_trigger_witness :
    (completionSequence^[2] (⟨true, 0, 0, 0⟩ : AuthCtl)).detachCount = 0 + 1 ∧
    (completionSequence^[2] (⟨true, 0, 0, 0⟩ : AuthCtl)).reloadCount = 0 + 2 ∧
    (completionSequence^[2] (⟨true, 0, 0, 0⟩ : AuthCtl)).authViewLive = false :=
  gameWindow_completion_detach_once_reload_per_trigger ⟨true, 0, 0, 0⟩ 2 rfl (by decide)

/-!
Cookie and localStorage transfer (`_transferCookies`).

A cookie record as returned by `session.cookies.get({})`; `toDetails` is the
object literal built in the loop body (`cookieDetails`), preserving every
attribute and deriving the `url` field from `secure`/`domain`.
-/

/-- A cookie as read from the AuthSession jar. -/
structure CookieRecord where
  name : String
  value : String
  domain : String
  path : String
  secure : Bool
  httpOnly : Bool
  expirationDate : Option Nat
  sameSite : String
  deriving DecidableEq, Repr

/-- The `cookieDetails` object passed to `cookies.set` for one record. -/
structure CookieDetails where
  url : String
  name : String
  value : String
  domain : String
  path : String
  secure : Bool
  httpOnly : Bool
  expirationDate : Option Nat
  sameSite : String
  deriving DecidableEq, Repr

/-- The object literal built in the `_transferCookies` loop:
`url: cookie.secure ? "https://" + cookie.domain : "http://" + cookie.domain`
and every other attribute copied verbatim. -/
def toDetails (c : CookieRecord) : CookieDetails :=
  { url := (if c.secure then "https://" ++ c.domain else "http://" ++ c.domain),
    name := c.name, value := c.value, domain := c.domain, path := c.path,
    secure := c.secure, httpOnly := c.httpOnly,
    expirationDate := c.expirationDate, sameSite := c.sameSite }

/-- The identity key under which the Chromium cookie store (behind the Electron
`cookies.set`) overwrites an existing cookie: name, domain, path. -/
structure CookieKey where
  name : String
  domain : String
  path : String
  deriving DecidableEq, Repr

/-- Key of a cookie-details object. -/
def cookieKey (d : CookieDetails) : CookieKey := ⟨d.name, d.domain, d.path⟩

/-- Model of the cookie jar of the primary session: the stored cookies in
insertion order.  `jarSet` models one successful `cookies.set` call: it
replaces the cookie with the same (name, domain, path) key if present,
otherwise appends. -/
def jarSet (jar : List CookieDetails) (d : CookieDetails) : List CookieDetails :=
  if jar.any (fun e => decide (cookieKey e = cookieKey d)) then
    jar.map (fun e => if cookieKey e = cookieKey d then d else e)
  else
    jar ++ [d]

/-- Jar lookup by (name, domain, path) key. -/
def jarLookup (jar : List CookieDetails) (k : CookieKey) : Option CookieDetails :=
  jar.find? (fun e => decide (cookieKey e = k))

/-- The `for (const cookie of cookies)` loop of `_transferCookies`: each
record is formatted and one `cookies.set` is attempted; a failing set
(modelled by the `fails` outcome of the surrounding try/catch) is logged and
skipped without aborting the loop.  Returns the final jar and the list of
attempted `cookieDetails` in attempt order. -/
def transferLoop (fails : CookieDetails → Bool) (jar : List CookieDetails) :
    List CookieRecord → List CookieDetails × List CookieDetails
  | [] => (jar, [])
  | r :: rs =>
    let d := toDetails r
    let jar1 := if fails d then jar else jarSet jar d
    let res := transferLoop fails jar1 rs
    (res.1, d :: res.2)

/-!
The completion sequence as an effect trace (extended `_transferCookies`): get
the cookies, set each one, read localStorage, replay it in bulk when
non-empty, then the `.then` continuation detaches the view and reloads.
-/

/-- Observable steps of the completion sequence, in execution order. -/
inductive Step where
  | getCookies : Step
  | setCookie : CookieDetails → Step
  | getLocalStorage : Step
  | setLocalStorage : List (String × String) → Step
  | detach : Step
  | reload : Step
  deriving DecidableEq, Repr

/-- Effect trace of one `_transferCookies()` call.  `authLive` is whether
`_authBrowserView` is non-null on entry (early return otherwise);
`cookiesResult` is the outcome of `cookies.get({})` (the outer catch logs
and returns false on error); `storageResult` is the outcome of the
localStorage-reading `executeJavaScript` (the inner catch logs and
continues); the bulk write runs only when the read data is non-empty. -/
def transferCookiesTrace (authLive : Bool)
    (cookiesResult : Except String (List CookieRecord))
    (storageResult : Except String (List (String × String))) : List Step :=
  if authLive = false then []
  else
    match cookiesResult with
    | .error _ => [Step.getCookies]
    | .ok cookies =>
      Step.getCookies :: cookies.map (fun c => Step.setCookie (toDetails c)) ++
        match storageResult with
        | .error _ => [Step.getLocalStorage]
        | .ok data =>
          Step.getLocalStorage ::
            (if data.isEmpty then [] else [Step.setLocalStorage data])

/-- Effect trace of one full completion sequence: `_transferCookies()`
followed by its `.then` continuation (guarded detach, unconditional
reload).  The transfer itself never detaches, so the guard sees the entry
liveness. -/
def completionTrace (authLive : Bool)
    (cookiesResult : Except String (List CookieRecord))
    (storageResult : Except String (List (String × String))) : List Step :=
  transferCookiesTrace authLive cookiesResult storageResult ++
    (if authLive then [Step.detach] else []) ++ [Step.reload]

/-- C2: on a live AuthSession with successful reads, the completion sequence
performs, in this strict order: (a) one cookie read followed by one cookie
set per record in received order, (b) one localStorage read followed by one
bulk localStorage write when the snapshot is non-empty, (c) the detach of
the AuthSession, (d) the reload of the primary session — and the reload is
the final step. -/
theorem completion_sequence_ordered
    (cookies : List CookieRecord) (storage : List (String × String)) :
    completionTrace true (.ok cookies) (.ok storage) =
      Step.getCookies :: cookies.map (fun c => Step.setCookie (toDetails c)) ++
        (Step.getLocalStorage ::
          (if storage.isEmpty then [] else [Step.setLocalStorage storage])) ++
        [Step.detach, Step.reload] ∧
    (completionTrace true (.ok cookies) (.ok storage)).getLast? =
      some Step.reload := by
  constructor
  · simp [completionTrace, transferCookiesTrace]
  · have h1 : completionTrace true (.ok cookies) (.ok storage) =
        (Step.getCookies :: cookies.map (fun c => Step.setCookie (toDetails c)) ++
          (Step.getLocalStorage ::
            (if storage.isEmpty then [] else [Step.setLocalStorage storage])) ++
          [Step.detach]) ++ [Step.reload] := by
      simp [completionTrace, transferCookiesTrace]
    rw [h1, List.getLast?_concat]

theorem jarLookup_map_replace (jar : List CookieDetails) (d : CookieDetails)
    (k : CookieKey) (hk : k ≠ cookieKey d) :
    jarLookup (jar.map (fun e => if cookieKey e = cookieKey d then d else e)) k =
      jarLookup jar k := by
  induction jar with
  | nil => rfl
  | cons e rest ih =>
    simp only [jarLookup, List.map_cons] at *
    by_cases he : cookieKey e = cookieKey d
    · rw [if_pos he]
      rw [List.find?_cons_of_neg _ (by simp; exact fun h => hk h.symm)]
      rw [List.find?_cons_of_neg _ (by simp [he]; exact fun h => hk h.symm)]
      exact ih
    · rw [if_neg he]
      by_cases hek : cookieKey e = k
      · rw [List.find?_cons_of_pos _ (by simp [hek]),
          List.find?_cons_of_pos _ (by simp [hek])]
      · rw [List.find?_cons_of_neg _ (by simp [hek]),
          List.find?_cons_of_neg _ (by simp [hek])]
        exact ih

theorem jarLookup_map_replace_hit (jar : List CookieDetails) (d : CookieDetails)
    (h : jar.any (fun e => decide (cookieKey e = cookieKey d)) = true) :
    jarLookup (jar.map (fun e => if cookieKey e = cookieKey d then d else e))
      (cookieKey d) = some d := by
  induction jar with
  | nil => simp at h
  | cons e rest ih =>
    simp only [jarLookup, List.map_cons] at *
    by_cases he : cookieKey e = cookieKey d
    · rw [if_pos he, List.find?_cons_of_pos _ (by simp)]
    · simp only [List.any_cons, Bool.or_eq_true, decide_eq_true_eq] at h
      rcases h with h | h
      · exact absurd h he
      · rw [if_neg he, List.find?_cons_of_neg _ (by simp [he])]
        exact ih h

/-- Lookup after one successful `cookies.set`: the set key now maps to the
new details; every other key is untouched. -/
theorem jarLookup_jarSet (jar : List CookieDetails) (d : CookieDetails)
    (k : CookieKey) :
    jarLookup (jarSet jar d) k =
      if k = cookieKey d then some d else jarLookup jar k := by
  unfold jarSet
  by_cases hany : jar.any (fun e => decide (cookieKey e = cookieKey d)) = true
  · rw [if_pos hany]
    by_cases hk : k = cookieKey d
    · subst hk; rw [if_pos rfl]; exact jarLookup_map_replace_hit jar d hany
    · rw [if_neg hk]; exact jarLookup_map_replace jar d k hk
  · rw [if_neg hany]
    have hnone : jarLookup jar (cookieKey d) = none := by
      rw [jarLookup, List.find?_eq_none]
      intro e he
      simp only [decide_eq_true_eq]
      intro hee
      exact hany (List.any_eq_true.2 ⟨e, he, by simp [hee]⟩)
    by_cases hk : k = cookieKey d
    · subst hk
      rw [if_pos rfl, jarLookup, List.find?_append]
      rw [jarLookup] at hnone
      rw [hnone, List.find?_cons_of_pos _ (by simp)]
      rfl
    · rw [if_neg hk, jarLookup, List.find?_append, jarLookup]
      have hd : (List.find? (fun e => decide (cookieKey e = k)) [d]) = none := by
        rw [List.find?_cons_of_neg _ (by simp; exact fun h => hk h.symm)]
        rfl
      rw [hd]
      cases List.find? (fun e => decide (cookieKey e = k)) jar <;> simp

/-- The latest cookie-details among `records` whose key is `k` (the value the
jar must end with at key `k` after an all-successful transfer). -/
def lastKeyed (records : List CookieRecord) (k : CookieKey) : Option CookieDetails :=
  ((records.map toDetails).filter (fun d => decide (cookieKey d = k))).getLast?

theorem lastKeyed_cons (r : CookieRecord) (rs : List CookieRecord) (k : CookieKey) :
    lastKeyed (r :: rs) k =
      match lastKeyed rs k with
      | some d => some d
      | none => if cookieKey (toDetails r) = k then some (toDetails r) else none := by
  unfold lastKeyed
  simp only [List.map_cons, List.filter_cons]
  by_cases h : cookieKey (toDetails r) = k
  · rw [if_pos (by simp [h])]
    cases hrest : ((rs.map toDetails).filter (fun d => decide (cookieKey d = k))).getLast? with
    | none =>
      have hnil := List.getLast?_eq_none_iff.1 hrest
      simp [hnil, h]
    | some d =>
      rcases List.getLast?_eq_some_iff.1 hrest with ⟨l, hl⟩
      rw [hl, show toDetails r :: (l ++ [d]) = (toDetails r :: l) ++ [d] from rfl,
        List.getLast?_concat]
  · rw [if_neg (by simp [h])]
    cases hrest : ((rs.map toDetails).filter (fun d => decide (cookieKey d = k))).getLast? <;>
      simp [hrest, h]

/-- C3: for every jar, every sequence of cookie records (name collisions
included) and every per-record failure outcome: (i) the loop makes exactly
one transfer attempt per record, in received order, regardless of failures
(so the failure of one record never aborts the batch); (ii) when every set
succeeds, the final jar maps each (name, domain, path) key to the latest
record received under that key, and keys not touched by the batch keep
their previous value. -/
theorem transferCookies_attempts_and_latest_per_key
    (fails : CookieDetails → Bool) (jar : List CookieDetails)
    (records : List CookieRecord) (k : CookieKey) :
    (transferLoop fails jar records).2 = records.map toDetails ∧
    jarLookup (transferLoop (fun _ => false) jar records).1 k =
      (match lastKeyed records k with
       | some d => some d
       | none => jarLookup jar k) := by
  constructor
  · induction records generalizing jar with
    | nil => rfl
    | cons r rs ih => simp [transferLoop, ih]
  · induction records generalizing jar with
    | nil => simp [transferLoop, lastKeyed]
    | cons r rs ih =>
      rw [lastKeyed_cons]
      have hstep : (transferLoop (fun _ => false) jar (r :: rs)).1 =
          (transferLoop (fun _ => false) (jarSet jar (toDetails r)) rs).1 := by
        simp [transferLoop]
      rw [hstep, ih (jarSet jar (toDetails r))]
      cases hlast : lastKeyed rs k with
      | some d => rfl
      | none =>
        simp only []
        rw [jarLookup_jarSet]
        by_cases hk : k = cookieKey (toDetails r)
        · rw [if_pos hk, if_pos hk.symm]
        · rw [if_neg hk, if_neg (fun h => hk h.symm)]

/-- C3 (witness): the theorem applied to a concrete collision batch — two
records under the same (name, domain, path) key; the jar ends with the
second value, one attempt was made per record, in order. -/
theorem transferCookies_attempts_and_latest_per_key_witness :
    (transferLoop (fun _ => false) []
      [⟨"sid", "abc", "x.test", "/", false, false, none, "lax"⟩,
       ⟨"sid", "def", "x.test", "/", false, false, none, "lax"⟩]).2 =
      [⟨"sid", "abc", "x.test", "/", false, false, none, "lax"⟩,
       ⟨"sid", "def", "x.test", "/", false, false, none, "lax"⟩].map toDetails ∧
    jarLookup (transferLoop (fun _ => false) []
      [⟨"sid", "abc", "x.test", "/", false, false, none, "lax"⟩,
       ⟨"sid", "def", "x.test", "/", false, false, none, "lax"⟩]).1
      ⟨"sid", "x.test", "/"⟩ =
      (match lastKeyed
        [⟨"sid", "abc", "x.test", "/", false, false, none, "lax"⟩,
         ⟨"sid", "def", "x.test", "/", false, false, none, "lax"⟩]
        ⟨"sid", "x.test", "/"⟩ with
       | some d => some d
       | none => jarLookup [] ⟨"sid", "x.test", "/"⟩) :=
  transferCookies_attempts_and_latest_per_key (fun _ => false) []
    [⟨"sid", "abc", "x.test", "/", false, false, none, "lax"⟩,
     ⟨"sid", "def", "x.test", "/", false, false, none, "lax"⟩]
    ⟨"sid", "x.test", "/"⟩

/-!
WSA requirement checks (`checkWSARequirements`, extended variant in
`window-finder.ts`).  Each helper (`isWindows11`, `isWSAInstalled`,
`isADBAvailable`) is an awaited external probe; its outcome is modelled as
`Except String Bool` — `.error e` is the case of the helper rejecting, which
the per-check `try/catch` converts into a synthetic issue string.  The outer
`try/catch` of the function converts an exception thrown during the
aggregation itself (modelled by the `aggregationError` input: when present,
the body is considered to have thrown with that message) into the single
synthetic issue of its own catch block, discarding any accumulated issues.
-/

instance {ε α : Type} [DecidableEq ε] [DecidableEq α] : DecidableEq (Except ε α) :=
  fun x y =>
  match x, y with
  | .ok a, .ok b =>
    if h : a = b then isTrue (by rw [h]) else isFalse (fun hh => by cases hh; exact h rfl)
  | .error a, .error b =>
    if h : a = b then isTrue (by rw [h]) else isFalse (fun hh => by cases hh; exact h rfl)
  | .ok _, .error _ => isFalse (fun h => by cases h)
  | .error _, .ok _ => isFalse (fun h => by cases h)

/-- Environment of one `checkWSARequirements()` call: the process platform,
the outcome of each independent check, and whether the aggregation body
itself threw (the message of that unexpected exception, if any). -/
structure WSAEnv where
  platformWin32 : Bool
  win11 : Except String Bool
  wsaInstalled : Except String Bool
  adbAvailable : Except String Bool
  aggregationError : Option String
  deriving DecidableEq, Repr

/-- The result record `{ meetsRequirements, issues }`. -/
structure ReqResult where
  meetsRequirements : Bool
  issues : List String
  deriving DecidableEq, Repr

/-- Issue string pushed when the platform is not Windows. -/
def msgWinRequired : String := "Windows is required for Windows Subsystem for Android"

/-- Issue string pushed when `isWindows11()` returns false. -/
def msgWin11Required : String := "Windows 11 is required for Windows Subsystem for Android"

/-- Issue string pushed when `isWSAInstalled()` returns false. -/
def msgWsaNotInstalled : String := "Windows Subsystem for Android is not installed"

/-- Issue string pushed when `isADBAvailable()` returns false. -/
def msgAdbNotAvailable : String := "Android Debug Bridge (ADB) is not available"

/-- Prefix of the synthetic issue for a throwing Windows-version check. -/
def errWin11 : String := "Error checking Windows version: "

/-- Prefix of the synthetic issue for a throwing WSA-installed check. -/
def errWsaInstalled : String := "Error checking if WSA is installed: "

/-- Prefix of the synthetic issue for a throwing ADB-availability check. -/
def errAdbAvailable : String := "Error checking if ADB is available: "

/-- Prefix of the synthetic issue produced by the outer catch of
`checkWSARequirements()` for an unexpected aggregation exception. -/
def msgUnexpected : String := "Unexpected error checking WSA requirements: "

/-- One `try { const ok = await check(); if (!ok) issues.push(failMsg) }
catch (error) { issues.push(errPrefix + error.message) }` block: the list of
issues (zero or one) that the block appends. -/
def checkIssue (res : Except String Bool) (failMsg errPrefix : String) : List String :=
  match res with
  | .ok true => []
  | .ok false => [failMsg]
  | .error e => [errPrefix ++ e]

/-- The issue list accumulated by the three sequential check blocks when the
aggregation runs to the end on Windows. -/
def wsaIssues (env : WSAEnv) : List String :=
  checkIssue env.win11 msgWin11Required errWin11 ++
  checkIssue env.wsaInstalled msgWsaNotInstalled errWsaInstalled ++
  checkIssue env.adbAvailable msgAdbNotAvailable errAdbAvailable

/-- Model of the extended `checkWSARequirements()`: the outer catch converts
an aggregation exception into the single synthetic issue (discarding any
accumulated issues); otherwise the body returns early with the single
Windows-required issue off Windows, and on Windows the three independent
checks run in order, each appending its issue on failure, with
`meetsRequirements` being `issues.length === 0`. -/
def checkWSARequirements (env : WSAEnv) : ReqResult :=
  match env.aggregationError with
  | some e => { meetsRequirements := false, issues := [msgUnexpected ++ e] }
  | none =>
    if env.platformWin32 = false then
      { meetsRequirements := false, issues := [msgWinRequired] }
    else
      { meetsRequirements := (wsaIssues env).isEmpty, issues := wsaIssues env }

/-- Number of independent checks that do not pass (return false or throw). -/
def failCount (env : WSAEnv) : Nat :=
  (if env.win11 = .ok true then 0 else 1) +
  (if env.wsaInstalled = .ok true then 0 else 1) +
  (if env.adbAvailable = .ok true then 0 else 1)

theorem ne_append_of_getElem (a p : String) (i : Nat) (hi : i < p.data.length)
    (hne : a.data[i]? ≠ p.data[i]?) (e : String) : a ≠ p ++ e := by
  intro heq
  apply hne
  rw [heq]
  show (p ++ e).data[i]? = p.data[i]?
  have hd : (p ++ e).data = p.data ++ e.data := rfl
  rw [hd]
  exact List.getElem?_append_left hi

theorem append_ne_append_of_getElem (p q : String) (i : Nat)
    (hip : i < p.data.length) (hiq : i < q.data.length)
    (hne : p.data[i]? ≠ q.data[i]?) (e1 e2 : String) : p ++ e1 ≠ q ++ e2 := by
  intro heq
  apply hne
  have h1 : (p ++ e1).data[i]? = p.data[i]? := by
    have hd : (p ++ e1).data = p.data ++ e1.data := rfl
    rw [hd]
    exact List.getElem?_append_left hip
  have h2 : (q ++ e2).data[i]? = q.data[i]? := by
    have hd : (q ++ e2).data = q.data ++ e2.data := rfl
    rw [hd]
    exact List.getElem?_append_left hiq
  rw [← h1, heq, h2]

theorem checkIssue_length (res : Except String Bool) (m p : String) :
    (checkIssue res m p).length = if res = .ok true then 0 else 1 := by
  cases res with
  | error e => simp [checkIssue]
  | ok b => cases b <;> simp [checkIssue]

theorem checkIssue_eq_nil_iff (res : Except String Bool) (m p : String) :
    checkIssue res m p = [] ↔ res = .ok true := by
  cases res with
  | error e => simp [checkIssue]
  | ok b => cases b <;> simp [checkIssue]

theorem checkIssue_mem_msg (res : Except String Bool) (m p : String)
    (hsynth : ∀ e, m ≠ p ++ e) : m ∈ checkIssue res m p ↔ res = .ok false := by
  cases res with
  | error e => simp [checkIssue, hsynth e]
  | ok b => cases b <;> simp [checkIssue]

theorem checkIssue_not_mem (x : String) (res : Except String Bool) (m p : String)
    (hm : x ≠ m) (hsynth : ∀ e, x ≠ p ++ e) : x ∉ checkIssue res m p := by
  cases res with
  | error e => simp [checkIssue, hsynth e]
  | ok b => cases b <;> simp [checkIssue, hm]

theorem checkIssue_synth_mem (m p e : String) :
    p ++ e ∈ checkIssue (.error e) m p := by
  simp [checkIssue]

theorem checkIssue_nodup (res : Except String Bool) (m p : String) :
    (checkIssue res m p).Nodup := by
  cases res with
  | error e => simp [checkIssue]
  | ok b => cases b <;> simp [checkIssue]

theorem checkIssue_mem_cases (x : String) (res : Except String Bool) (m p : String)
    (h : x ∈ checkIssue res m p) : x = m ∨ ∃ e, x = p ++ e := by
  cases res with
  | error e =>
    simp [checkIssue] at h
    exact Or.inr ⟨e, h⟩
  | ok b =>
    cases b with
    | true => simp [checkIssue] at h
    | false =>
      simp [checkIssue] at h
      exact Or.inl h

theorem wsaIssues_length (env : WSAEnv) : (wsaIssues env).length = failCount env := by
  rw [wsaIssues, failCount, List.length_append, List.length_append]
  simp only [checkIssue_length]

theorem wsaIssues_nil_iff (env : WSAEnv) :
    wsaIssues env = [] ↔
      (env.win11 = .ok true ∧ env.wsaInstalled = .ok true ∧
        env.adbAvailable = .ok true) := by
  rw [wsaIssues]
  simp [checkIssue_eq_nil_iff]

theorem msgWin11_mem_wsaIssues (env : WSAEnv) :
    msgWin11Required ∈ wsaIssues env ↔ env.win11 = .ok false := by
  rw [wsaIssues, List.mem_append, List.mem_append]
  have h1 := checkIssue_mem_msg env.win11 msgWin11Required errWin11
    (fun e => ne_append_of_getElem msgWin11Required errWin11 0 (by decide) (by decide) e)
  have h2 := checkIssue_not_mem msgWin11Required env.wsaInstalled msgWsaNotInstalled
    errWsaInstalled (by decide)
    (fun e => ne_append_of_getElem msgWin11Required errWsaInstalled 0 (by decide) (by decide) e)
  have h3 := checkIssue_not_mem msgWin11Required env.adbAvailable msgAdbNotAvailable
    errAdbAvailable (by decide)
    (fun e => ne_append_of_getElem msgWin11Required errAdbAvailable 0 (by decide) (by decide) e)
  constructor
  · rintro ((h | h) | h)
    · exact h1.1 h
    · exact absurd h h2
    · exact absurd h h3
  · intro h
    exact Or.inl (Or.inl (h1.2 h))

theorem msgWsa_mem_wsaIssues (env : WSAEnv) :
    msgWsaNotInstalled ∈ wsaIssues env ↔ env.wsaInstalled = .ok false := by
  rw [wsaIssues, List.mem_append, List.mem_append]
  have h1 := checkIssue_not_mem msgWsaNotInstalled env.win11 msgWin11Required
    errWin11 (by decide)
    (fun e => ne_append_of_getElem msgWsaNotInstalled errWin11 0 (by decide) (by decide) e)
  have h2 := checkIssue_mem_msg env.wsaInstalled msgWsaNotInstalled errWsaInstalled
    (fun e => ne_append_of_getElem msgWsaNotInstalled errWsaInstalled 0 (by decide) (by decide) e)
  have h3 := checkIssue_not_mem msgWsaNotInstalled env.adbAvailable msgAdbNotAvailable
    errAdbAvailable (by decide)
    (fun e => ne_append_of_getElem msgWsaNotInstalled errAdbAvailable 0 (by decide) (by decide) e)
  constructor
  · rintro ((h | h) | h)
    · exact absurd h h1
    · exact h2.1 h
    · exact absurd h h3
  · intro h
    exact Or.inl (Or.inr (h2.2 h))

theorem msgAdb_mem_wsaIssues (env : WSAEnv) :
    msgAdbNotAvailable ∈ wsaIssues env ↔ env.adbAvailable = .ok false := by
  rw [wsaIssues, List.mem_append, List.mem_append]
  have h1 := checkIssue_not_mem msgAdbNotAvailable env.win11 msgWin11Required
    errWin11 (by decide)
    (fun e => ne_append_of_getElem msgAdbNotAvailable errWin11 0 (by decide) (by decide) e)
  have h2 := checkIssue_not_mem msgAdbNotAvailable env.wsaInstalled msgWsaNotInstalled
    errWsaInstalled (by decide)
    (fun e => ne_append_of_getElem msgAdbNotAvailable errWsaInstalled 0 (by decide) (by decide) e)
  have h3 := checkIssue_mem_msg env.adbAvailable msgAdbNotAvailable errAdbAvailable
    (fun e => ne_append_of_getElem msgAdbNotAvailable errAdbAvailable 0 (by decide) (by decide) e)
  constructor
  · rintro ((h | h) | h)
    · exact absurd h h1
    · exact absurd h h2
    · exact h3.1 h
  · intro h
    exact Or.inr (h3.2 h)

theorem synthWin11_mem_wsaIssues (env : WSAEnv) (e : String)
    (h : env.win11 = .error e) : errWin11 ++ e ∈ wsaIssues env := by
  rw [wsaIssues, List.mem_append, List.mem_append]
  exact Or.inl (Or.inl (by rw [h]; exact checkIssue_synth_mem _ _ _))

theorem synthWsa_mem_wsaIssues (env : WSAEnv) (e : String)
    (h : env.wsaInstalled = .error e) : errWsaInstalled ++ e ∈ wsaIssues env := by
  rw [wsaIssues, List.mem_append, List.mem_append]
  exact Or.inl (Or.inr (by rw [h]; exact checkIssue_synth_mem _ _ _))

theorem synthAdb_mem_wsaIssues (env : WSAEnv) (e : String)
    (h : env.adbAvailable = .error e) : errAdbAvailable ++ e ∈ wsaIssues env := by
  rw [wsaIssues, List.mem_append, List.mem_append]
  exact Or.inr (by rw [h]; exact checkIssue_synth_mem _ _ _)

theorem wsaIssues_nodup (env : WSAEnv) : (wsaIssues env).Nodup := by
  rw [wsaIssues]
  have d12 : ∀ x ∈ checkIssue env.win11 msgWin11Required errWin11,
      x ∉ checkIssue env.wsaInstalled msgWsaNotInstalled errWsaInstalled := by
    intro x hx
    rcases checkIssue_mem_cases x _ _ _ hx with rfl | ⟨e0, rfl⟩
    · exact checkIssue_not_mem _ _ _ _ (by decide)
        (fun e => ne_append_of_getElem msgWin11Required errWsaInstalled 0 (by decide) (by decide) e)
    · exact checkIssue_not_mem _ _ _ _
        ((ne_append_of_getElem msgWsaNotInstalled errWin11 0 (by decide) (by decide) e0).symm)
        (fun e => append_ne_append_of_getElem errWin11 errWsaInstalled 15
          (by decide) (by decide) (by decide) e0 e)
  have d13 : ∀ x ∈ checkIssue env.win11 msgWin11Required errWin11,
      x ∉ checkIssue env.adbAvailable msgAdbNotAvailable errAdbAvailable := by
    intro x hx
    rcases checkIssue_mem_cases x _ _ _ hx with rfl | ⟨e0, rfl⟩
    · exact checkIssue_not_mem _ _ _ _ (by decide)
        (fun e => ne_append_of_getElem msgWin11Required errAdbAvailable 0 (by decide) (by decide) e)
    · exact checkIssue_not_mem _ _ _ _
        ((ne_append_of_getElem msgAdbNotAvailable errWin11 0 (by decide) (by decide) e0).symm)
        (fun e => append_ne_append_of_getElem errWin11 errAdbAvailable 15
          (by decide) (by decide) (by decide) e0 e)
  have d23 : ∀ x ∈ checkIssue env.wsaInstalled msgWsaNotInstalled errWsaInstalled,
      x ∉ checkIssue env.adbAvailable msgAdbNotAvailable errAdbAvailable := by
    intro x hx
    rcases checkIssue_mem_cases x _ _ _ hx with rfl | ⟨e0, rfl⟩
    · exact checkIssue_not_mem _ _ _ _ (by decide)
        (fun e => ne_append_of_getElem msgWsaNotInstalled errAdbAvailable 0 (by decide) (by decide) e)
    · exact checkIssue_not_mem _ _ _ _
        ((ne_append_of_getElem msgAdbNotAvailable errWsaInstalled 0 (by decide) (by decide) e0).symm)
        (fun e => append_ne_append_of_getElem errWsaInstalled errAdbAvailable 18
          (by decide) (by decide) (by decide) e0 e)
  refine List.Nodup.append
    (List.Nodup.append (checkIssue_nodup _ _ _) (checkIssue_nodup _ _ _)
      (List.disjoint_left.2 d12))
    (checkIssue_nodup _ _ _)
    (List.disjoint_left.2 ?_)
  intro x hx
  rcases List.mem_append.1 hx with h | h
  · exact d13 x h
  · exact d23 x h

/-- C4 (counterexample): on a non-Windows platform where all three
independent checks would fail, `checkWSARequirements()` short-circuits: it
returns the single platform issue, so the failing WSA-installed check
contributes no issue string (the claim requires one distinct issue per
failing check for every OS state). -/
theorem checkWSARequirements_non_windows_short_circuits :
    checkWSARequirements ⟨false, .ok false, .ok false, .ok false, none⟩ =
      { meetsRequirements := false, issues := [msgWinRequired] } ∧
    (checkWSARequirements ⟨false, .ok false, .ok false, .ok false, none⟩).issues.length = 1 ∧
    failCount ⟨false, .ok false, .ok false, .ok false, none⟩ = 3 ∧
    msgWsaNotInstalled ∉
      (checkWSARequirements ⟨false, .ok false, .ok false, .ok false, none⟩).issues := by
  refine ⟨by decide, by decide, by decide, by decide⟩

/-- C4 (amended): on Windows, `checkWSARequirements()` runs every
independent check without short-circuiting and appends exactly one distinct
issue per failing check — the standard message when a check returns false
(each standard message appears exactly when its check fails), a synthetic
prefixed message when a check throws — returns `meetsRequirements = true`
with an empty issue list exactly when all three checks pass, and an
unexpected exception during the aggregation itself is caught and converted
into the single synthetic issue of the outer catch rather than propagating;
on a non-Windows platform the function instead returns immediately with the
single platform issue. -/
theorem checkWSARequirements_windows_one_issue_per_failing_check
    (env : WSAEnv) (hp : env.platformWin32 = true) :
    (env.aggregationError = none →
      (checkWSARequirements env).issues.length = failCount env ∧
      ((checkWSARequirements env).meetsRequirements = true ↔
        (checkWSARequirements env).issues = []) ∧
      ((checkWSARequirements env).meetsRequirements = true ↔
        (env.win11 = .ok true ∧ env.wsaInstalled = .ok true ∧
          env.adbAvailable = .ok true)) ∧
      (msgWin11Required ∈ (checkWSARequirements env).issues ↔
        env.win11 = .ok false) ∧
      (msgWsaNotInstalled ∈ (checkWSARequirements env).issues ↔
        env.wsaInstalled = .ok false) ∧
      (msgAdbNotAvailable ∈ (checkWSARequirements env).issues ↔
        env.adbAvailable = .ok false) ∧
      (∀ e, env.win11 = .error e →
        errWin11 ++ e ∈ (checkWSARequirements env).issues) ∧
      (∀ e, env.wsaInstalled = .error e →
        errWsaInstalled ++ e ∈ (checkWSARequirements env).issues) ∧
      (∀ e, env.adbAvailable = .error e →
        errAdbAvailable ++ e ∈ (checkWSARequirements env).issues) ∧
      (checkWSARequirements env).issues.Nodup) ∧
    (∀ e, env.aggregationError = some e →
      checkWSARequirements env =
        { meetsRequirements := false, issues := [msgUnexpected ++ e] }) := by
  constructor
  · intro hagg
    have hres : checkWSARequirements env =
        { meetsRequirements := (wsaIssues env).isEmpty, issues := wsaIssues env } := by
      simp [checkWSARequirements, hagg, hp]
    rw [hres]
    refine ⟨wsaIssues_length env, by simp, ?_,
      msgWin11_mem_wsaIssues env, msgWsa_mem_wsaIssues env, msgAdb_mem_wsaIssues env,
      fun e he => synthWin11_mem_wsaIssues env e he,
      fun e he => synthWsa_mem_wsaIssues env e he,
      fun e he => synthAdb_mem_wsaIssues env e he,
      wsaIssues_nodup env⟩
    simpa [List.isEmpty_iff] using wsaIssues_nil_iff env
  · intro e hagg
    simp [checkWSARequirements, hagg]

/-- C4 (witness): the amended theorem at a concrete Windows environment with
one failing check and one throwing check (two issues: the standard message
and the synthetic message, distinct), and at an environment whose
aggregation itself throws (single synthetic issue). -/
theorem checkWSARequirements_windows_one_issue_per_failing_check_witness :
    (checkWSARequirements ⟨true, .ok false, .error "boom", .ok true, none⟩).issues.length =
      failCount ⟨true, .ok false, .error "boom", .ok true, none⟩ ∧
    (msgWin11Required ∈
      (checkWSARequirements ⟨true, .ok false, .error "boom", .ok true, none⟩).issues ↔
      (Except.ok false : Except String Bool) = .ok false) ∧
    errWsaInstalled ++ "boom" ∈
      (checkWSARequirements ⟨true, .ok false, .error "boom", .ok true, none⟩).issues ∧
    (checkWSARequirements ⟨true, .ok false, .error "boom", .ok true, none⟩).issues.Nodup ∧
    checkWSARequirements ⟨true, .ok true, .ok true, .ok true, some "kaput"⟩ =
      { meetsRequirements := false, issues := [msgUnexpected ++ "kaput"] } :=
  ⟨((checkWSARequirements_windows_one_issue_per_failing_check
      ⟨true, .ok false, .error "boom", .ok true, none⟩ rfl).1 rfl).1,
   ((checkWSARequirements_windows_one_issue_per_failing_check
      ⟨true, .ok false, .error "boom", .ok true, none⟩ rfl).1 rfl).2.2.2.1,
   ((checkWSARequirements_windows_one_issue_per_failing_check
      ⟨true, .ok false, .error "boom", .ok true, none⟩ rfl).1 rfl).2.2.2.2.2.2.2.1
      "boom" rfl,
   ((checkWSARequirements_windows_one_issue_per_failing_check
      ⟨true, .ok false, .error "boom", .ok true, none⟩ rfl).1 rfl).2.2.2.2.2.2.2.2.2,
   (checkWSARequirements_windows_one_issue_per_failing_check
      ⟨true, .ok true, .ok true, .ok true, some "kaput"⟩ rfl).2 "kaput" rfl⟩

/-!
GameWindow `setWindowOpenHandler` (`game-window.ts`): every request is
denied; for an `https:` URL the auth BrowserView is lazily created (only
when `_authBrowserView` is null) and the URL is loaded into it.
-/

/-- GameWindow state seen by the window-open handler: the identity of the
attached auth BrowserView if any, a fresh-identity source, and how many
BrowserViews this controller has constructed. -/
structure GameWinState where
  authView : Option Nat
  nextId : Nat
  created : Nat
  deriving DecidableEq, Repr

/-- The handler verdict for the primary session; the code returns
`deny` on every path. -/
inductive OpenAction where
  | deny : OpenAction
  deriving DecidableEq, Repr

/-- Outcome of one window-open request: the controller state afterwards, the
action returned to Electron, and the view (if any) that received the
`loadURL`. -/
structure OpenResult where
  state : GameWinState
  action : OpenAction
  loadedInto : Option Nat
  deriving DecidableEq, Repr

/-- Model of `setWindowOpenHandler(({ url }) => ...)`: `https:` URLs are
loaded into the (lazily created) auth BrowserView and denied; everything
else is denied outright. -/
def windowOpenHandler (s : GameWinState) (url : String) : OpenResult :=
  if strStartsWith url "https:" then
    match s.authView with
    | some v => { state := s, action := .deny, loadedInto := some v }
    | none =>
      let v := s.nextId
      { state := { authView := some v, nextId := s.nextId + 1, created := s.created + 1 },
        action := .deny, loadedInto := some v }
  else { state := s, action := .deny, loadedInto := none }

/-- C5: every window-open request from the primary session is denied; when
an auth BrowserView is already attached, the handler creates nothing (state
is unchanged) and loads an `https:` URL into the existing view, so a second
concurrent AuthSession is never created; when none is attached, an `https:`
URL lazily creates exactly one view and loads into it; and a view is
constructed only when none was attached. -/
theorem windowOpen_single_auth_session (s : GameWinState) (url : String) :
    (windowOpenHandler s url).action = OpenAction.deny ∧
    (∀ v, s.authView = some v →
      (windowOpenHandler s url).state = s ∧
      (strStartsWith url "https:" = true →
        (windowOpenHandler s url).loadedInto = some v)) ∧
    (s.authView = none → strStartsWith url "https:" = true →
      (windowOpenHandler s url).state.authView = some s.nextId ∧
      (windowOpenHandler s url).state.created = s.created + 1 ∧
      (windowOpenHandler s url).loadedInto = some s.nextId) ∧
    ((windowOpenHandler s url).state.created ≠ s.created → s.authView = none) := by
  refine ⟨?_, ?_, ?_, ?_⟩
  · by_cases hu : strStartsWith url "https:" = true
    · cases hv : s.authView <;> simp [windowOpenHandler, hu, hv]
    · simp [windowOpenHandler, hu]
  · intro v hv
    by_cases hu : strStartsWith url "https:" = true <;>
      simp [windowOpenHandler, hu, hv]
  · intro hv hu
    simp [windowOpenHandler, hu, hv]
  · intro hc
    by_cases hu : strStartsWith url "https:" = true
    · cases hv : s.authView with
      | some v => exact absurd (by simp [windowOpenHandler, hu, hv]) hc
      | none => rfl
    · exact absurd (by simp [windowOpenHandler, hu]) hc

/-- C5 (witness): the theorem at a controller with an attached auth view
(id 5) receiving an `https:` request: the request is denied, the state is
unchanged and the URL is loaded into the existing view 5, and at a
controller with no view: the view is lazily created. -/
theorem windowOpen_single_auth_session_witness :
    (windowOpenHandler ⟨some 5, 6, 1⟩ "https://auth.ankama.com/login").action =
      OpenAction.deny ∧
    (windowOpenHandler ⟨some 5, 6, 1⟩ "https://auth.ankama.com/login").state =
      (⟨some 5, 6, 1⟩ : GameWinState) ∧
    (windowOpenHandler ⟨some 5, 6, 1⟩ "https://auth.ankama.com/login").loadedInto =
      some 5 ∧
    (windowOpenHandler ⟨none, 0, 0⟩ "https://auth.ankama.com/login").state.authView =
      some 0 :=
  ⟨(windowOpen_single_auth_session ⟨some 5, 6, 1⟩ "https://auth.ankama.com/login").1,
   ((windowOpen_single_auth_session ⟨some 5, 6, 1⟩ "https://auth.ankama.com/login").2.1
      5 rfl).1,
   ((windowOpen_single_auth_session ⟨some 5, 6, 1⟩ "https://auth.ankama.com/login").2.1
      5 rfl).2 (by decide),
   ((windowOpen_single_auth_session ⟨none, 0, 0⟩ "https://auth.ankama.com/login").2.2.1
      rfl (by decide)).1⟩

/-!
WSAWindow controller (`wsa-window.ts`).

The state mirrors the instance fields: `_wsaHandle`, `_window` (modelled by
`windowExists`: non-null and not destroyed), `_isReady`, the two interval
handles (modelled by on/off flags) and `_initializationInProgress`.
`pendingWindowClosed` counts Electron `closed` events that the embedding
window will deliver asynchronously after `window.close()`.
-/

/-- A window rectangle as parsed from the PowerShell probe. -/
structure Rect where
  x : Int
  y : Int
  width : Int
  height : Int
  deriving DecidableEq, Repr

/-- WSAWindow instance state. -/
structure WSAState where
  wsaHandle : Option String
  windowExists : Bool
  isReady : Bool
  checkIntervalOn : Bool
  screenshotIntervalOn : Bool
  initInProgress : Bool
  pendingWindowClosed : Nat
  deriving DecidableEq, Repr

/-- Model of `cleanup()`: clears both intervals, requests the companion-app
stop (fire-and-forget, no state), closes the embedding window when it is
still alive (which queues one asynchronous Electron `closed` event for its
handler) and nulls it, then resets handle, readiness and the init flag. -/
def cleanup (s : WSAState) : WSAState :=
  let s1 : WSAState :=
    { s with checkIntervalOn := false, screenshotIntervalOn := false }
  let s2 : WSAState :=
    if s1.windowExists then
      { s1 with windowExists := false,
                pendingWindowClosed := s1.pendingWindowClosed + 1 }
    else s1
  { s2 with wsaHandle := none, isReady := false, initInProgress := false }

/-- Notifications emitted by the controller. -/
inductive WSAEmit where
  | ready : WSAEmit
  | error : WSAEmit
  | closed : WSAEmit
  | screenshot : String → WSAEmit
  deriving DecidableEq, Repr

/-- Model of Node `path.join(dir, file)` for the single use in
`takeDofusTouchScreenshot`. -/
def joinPath (dir file : String) : String :=
  if dir = "" then file else dir ++ "/" ++ file

/-- Model of `takeDofusTouchScreenshot()`: on success of the three adb steps
(screencap, pull, rm) it returns the local screenshot path; any failure is
caught and the empty string is returned. -/
def takeDofusTouchScreenshot (tempDir : String)
    (capOk pullOk rmOk : Bool) : String :=
  if capOk && pullOk && rmOk then joinPath tempDir "dofustouch_screenshot.png"
  else ""

/-- External events delivered to a WSAWindow between suspensions: one
liveness/geometry poll tick (with the outcome of `isWSAWindow` and
`getWindowRect`), the delivery of a queued embedding-window `closed` event,
and one screenshot poll tick (with the outcomes of the adb steps). -/
inductive WSAEvent where
  | checkTick : Bool → Option Rect → WSAEvent
  | windowClosedFire : WSAEvent
  | screenshotTick : String → Bool → Bool → Bool → WSAEvent
  deriving DecidableEq, Repr

/-- One step of the controller: dispatch one event, returning the new state
and the notifications emitted during the step. -/
def stepEvent (s : WSAState) : WSAEvent → WSAState × List WSAEmit
  | .checkTick isWsa _rect =>
    if s.checkIntervalOn = false then (s, [])
    else if s.wsaHandle = none ∨ s.windowExists = false then (s, [])
    else if isWsa = false then (cleanup s, [WSAEmit.closed])
    else (s, [])
  | .windowClosedFire =>
    if s.pendingWindowClosed = 0 then (s, [])
    else
      (cleanup { s with pendingWindowClosed := s.pendingWindowClosed - 1 },
        [WSAEmit.closed])
  | .screenshotTick tempDir capOk pullOk rmOk =>
    if s.screenshotIntervalOn = false then (s, [])
    else if s.isReady = false then (s, [])
    else
      let path := takeDofusTouchScreenshot tempDir capOk pullOk rmOk
      if path = "" then (s, []) else (s, [WSAEmit.screenshot path])

/-- Run a list of events, concatenating the emitted notifications. -/
def runEvents (s : WSAState) : List WSAEvent → WSAState × List WSAEmit
  | [] => (s, [])
  | ev :: evs =>
    let r1 := stepEvent s ev
    let r2 := runEvents r1.1 evs
    (r2.1, r1.2 ++ r2.2)

/-!
`WSAWindow.init()`.  Oracles for each awaited external call are collected in
`InitEnv`; `findResults i` is the outcome of the i-th `findWindowByTitle`
attempt of the bounded retry loop.
-/

/-- Outcomes of the awaited external calls made by `init()`. -/
structure InitEnv where
  platformWin32 : Bool
  wsaInstalled : Bool
  wsaRunning : Bool
  startOk : Bool
  connectOk : Bool
  dofusInstalled : Bool
  installOk : Bool
  launchOk : Bool
  findResults : Nat → Option String
  isWsaOk : Bool
  rect : Option Rect

/-- Side-effecting steps of the initialization sequence, in order. -/
inductive InitEffect where
  | checkWSAInstalled : InitEffect
  | checkWSARunning : InitEffect
  | startSubsystem : InitEffect
  | connectBridge : InitEffect
  | checkAppInstalled : InitEffect
  | installApp : InitEffect
  | launchApp : InitEffect
  | findWindowAttempt : InitEffect
  | verifyWindow : InitEffect
  | getRectQuery : InitEffect
  | createWindow : InitEffect
  | showWindow : InitEffect
  | startChecking : InitEffect
  | startScreenshots : InitEffect
  | emitReady : InitEffect
  | emitError : InitEffect
  deriving DecidableEq, Repr

/-- The bounded `findWindowByTitle` retry loop starting at attempt `i` with
`fuel` attempts left: returns the handle found (if any) and the number of
attempts made. -/
def findLoopFrom (f : Nat → Option String) (i fuel : Nat) : Option String × Nat :=
  match fuel with
  | 0 => (none, 0)
  | fuel + 1 =>
    match f i with
    | some h => (some h, 1)
    | none =>
      let r := findLoopFrom f (i + 1) fuel
      (r.1, r.2 + 1)

/-- The `while (retries < maxRetries && !this._wsaHandle)` loop with
`maxRetries = 10`. -/
def findLoop (f : Nat → Option String) : Option String × Nat := findLoopFrom f 0 10

/-- The `catch` block of `init()`: emit `error`, clear the in-progress flag,
run `cleanup()`, return false. -/
def initErrorExit (s : WSAState) (effs : List InitEffect) :
    Bool × WSAState × List InitEffect :=
  (false, cleanup { s with initInProgress := false }, effs ++ [InitEffect.emitError])

/-- The `try` body of `init()` (entered with `_initializationInProgress`
already set): platform gate, subsystem install/running checks with optional
start, bridge connection, companion-app install check with optional install,
launch, bounded window search, identity verification, geometry read, window
creation, interval start, readiness. -/
def runInitBody (s : WSAState) (env : InitEnv) : Bool × WSAState × List InitEffect :=
  if env.platformWin32 = false then initErrorExit s []
  else if env.wsaInstalled = false then
    initErrorExit s [InitEffect.checkWSAInstalled]
  else
    let effs1 := [InitEffect.checkWSAInstalled, InitEffect.checkWSARunning]
    if env.wsaRunning = false ∧ env.startOk = false then
      initErrorExit s (effs1 ++ [InitEffect.startSubsystem])
    else
      let effs2 := effs1 ++
        (if env.wsaRunning then [] else [InitEffect.startSubsystem]) ++
        [InitEffect.connectBridge]
      if env.connectOk = false then initErrorExit s effs2
      else
        let effs3 := effs2 ++ [InitEffect.checkAppInstalled]
        if env.dofusInstalled = false ∧ env.installOk = false then
          initErrorExit s (effs3 ++ [InitEffect.installApp])
        else
          let effs4 := effs3 ++
            (if env.dofusInstalled then [] else [InitEffect.installApp]) ++
            [InitEffect.launchApp]
          if env.launchOk = false then initErrorExit s effs4
          else
            let found := findLoop env.findResults
            let effs5 := effs4 ++
              List.replicate found.2 InitEffect.findWindowAttempt
            match found.1 with
            | none => initErrorExit s effs5
            | some h =>
              let s1 := { s with wsaHandle := some h }
              let effs6 := effs5 ++ [InitEffect.verifyWindow]
              if env.isWsaOk = false then initErrorExit s1 effs6
              else
                let effs7 := effs6 ++ [InitEffect.getRectQuery]
                match env.rect with
                | none => initErrorExit s1 effs7
                | some _ =>
                  let s2 : WSAState :=
                    { s1 with windowExists := true, checkIntervalOn := true,
                              screenshotIntervalOn := true, isReady := true,
                              initInProgress := false }
                  (true, s2,
                    effs7 ++ [InitEffect.createWindow, InitEffect.showWindow,
                      InitEffect.startChecking, InitEffect.startScreenshots,
                      InitEffect.emitReady])

/-- Model of `init()`: the duplicate-initialization guard (`return false`
when one is in progress, `return true` when already ready), then the flag is
set and the body runs. -/
def initCall (s : WSAState) (env : InitEnv) : Bool × WSAState × List InitEffect :=
  if s.initInProgress then (false, s, [])
  else if s.isReady then (true, s, [])
  else runInitBody { s with initInProgress := true } env

/-- C6: `init()` is guarded — called while an initialization is in progress
it returns false immediately with the state unchanged and zero side-effect
steps; called while already ready it returns true immediately with the state
unchanged and zero side-effect steps; and since a non-guarded call sets
`_initializationInProgress` before its first suspension and the body clears
the flag only at its very end, a second call overlapping the first (i.e. a
call on any state still carrying the flag) is a no-op, so at most one real
initialization sequence runs. -/
theorem wsa_init_idempotent_guard (s : WSAState) (env env2 : InitEnv)
    (hs : s.initInProgress = false) (hr : s.isReady = false) :
    (∀ t : WSAState, t.initInProgress = true → initCall t env2 = (false, t, [])) ∧
    (∀ t : WSAState, t.initInProgress = false → t.isReady = true →
      initCall t env2 = (true, t, [])) ∧
    initCall s env = runInitBody { s with initInProgress := true } env ∧
    initCall { s with initInProgress := true } env2 =
      (false, { s with initInProgress := true }, []) := by
  refine ⟨fun t ht => by simp [initCall, ht],
    fun t ht hrt => by simp [initCall, ht, hrt],
    by simp [initCall, hs, hr],
    by simp [initCall]⟩

/-- C6 (witness): the guard theorem at the fresh controller state. -/
theorem wsa_init_idempotent_guard_witness :
    initCall { wsaHandle := none, windowExists := false, isReady := false,
               checkIntervalOn := false, screenshotIntervalOn := false,
               initInProgress := true, pendingWindowClosed := 0 }
      ⟨true, true, true, true, true, true, true, true, fun _ => none, true, none⟩ =
      (false,
        { wsaHandle := none, windowExists := false, isReady := false,
          checkIntervalOn := false, screenshotIntervalOn := false,
          initInProgress := true, pendingWindowClosed := 0 }, []) :=
  (wsa_init_idempotent_guard
    { wsaHandle := none, windowExists := false, isReady := false,
      checkIntervalOn := false, screenshotIntervalOn := false,
      initInProgress := false, pendingWindowClosed := 0 }
    ⟨true, true, true, true, true, true, true, true, fun _ => none, true, none⟩
    ⟨true, true, true, true, true, true, true, true, fun _ => none, true, none⟩
    rfl rfl).1
    { wsaHandle := none, windowExists := false, isReady := false,
      checkIntervalOn := false, screenshotIntervalOn := false,
      initInProgress := true, pendingWindowClosed := 0 }
    rfl

/-- C7 (counterexample): from a Ready controller tracking a live native
window, a liveness-poll tick on which `isWSAWindow` reports the window gone
runs `cleanup()` and emits `closed`; but `cleanup()` closed the embedding
window, whose own `closed` handler then runs `cleanup()` and emits `closed`
AGAIN — two `closed` notifications in total, refuting that the cleanup path
never duplicates the notification. -/
theorem wsa_closed_emitted_twice :
    (runEvents
      { wsaHandle := some "h", windowExists := true, isReady := true,
        checkIntervalOn := true, screenshotIntervalOn := true,
        initInProgress := false, pendingWindowClosed := 0 }
      [WSAEvent.checkTick false none, WSAEvent.windowClosedFire]).2 =
      [WSAEmit.closed, WSAEmit.closed] ∧
    ((runEvents
      { wsaHandle := some "h", windowExists := true, isReady := true,
        checkIntervalOn := true, screenshotIntervalOn := true,
        initInProgress := false, pendingWindowClosed := 0 }
      [WSAEvent.checkTick false none, WSAEvent.windowClosedFire]).2.count
        WSAEmit.closed = 1 → False) := by
  refine ⟨by decide, by decide⟩

/-- C7 (amended): when the tracked native window disappears between two
liveness-poll ticks of a Ready controller, the detecting tick emits exactly
one `closed` notification and tears the controller down; every subsequent
poll tick emits nothing (the interval is cleared and the handle nulled); but
the teardown closed the embedding window, whose `closed` handler emits
exactly one additional `closed` notification, after which every further
event emits nothing — so the controller emits exactly two `closed`
notifications in total, not one. -/
theorem wsa_closed_once_per_path (s : WSAState)
    (hc : s.checkIntervalOn = true) (hh : s.wsaHandle ≠ none)
    (hw : s.windowExists = true) (hp : s.pendingWindowClosed = 0)
    (r : Option Rect) :
    (stepEvent s (.checkTick false r)).2 = [WSAEmit.closed] ∧
    (∀ (b : Bool) (r2 : Option Rect),
      (stepEvent (stepEvent s (.checkTick false r)).1 (.checkTick b r2)).2 = []) ∧
    (stepEvent (stepEvent s (.checkTick false r)).1 .windowClosedFire).2 =
      [WSAEmit.closed] ∧
    (∀ ev : WSAEvent,
      (stepEvent
        (stepEvent (stepEvent s (.checkTick false r)).1 .windowClosedFire).1
        ev).2 = []) := by
  obtain ⟨h0, w0, rdy, ci, si, ip, pc⟩ := s
  simp only at hc hh hw hp
  subst hc hw hp
  obtain ⟨h, rfl⟩ : ∃ x, h0 = some x := by
    cases h0 with
    | none => exact absurd rfl hh
    | some x => exact ⟨x, rfl⟩
  refine ⟨?_, ?_, ?_, ?_⟩
  · simp [stepEvent, cleanup]
  · intro b r2
    simp [stepEvent, cleanup]
  · simp [stepEvent, cleanup]
  · intro ev
    cases ev <;> simp [stepEvent, cleanup, takeDofusTouchScreenshot]

/-- C7 (witness): the amended theorem at the concrete Ready state. -/
theorem wsa_closed_once_per_path_witness :
    (stepEvent
      { wsaHandle := some "h", windowExists := true, isReady := true,
        checkIntervalOn := true, screenshotIntervalOn := true,
        initInProgress := false, pendingWindowClosed := 0 }
      (.checkTick false none)).2 = [WSAEmit.closed] ∧
    (stepEvent
      (stepEvent
        { wsaHandle := some "h", windowExists := true, isReady := true,
          checkIntervalOn := true, screenshotIntervalOn := true,
          initInProgress := false, pendingWindowClosed := 0 }
        (.checkTick false none)).1 .windowClosedFire).2 = [WSAEmit.closed] :=
  ⟨(wsa_closed_once_per_path
      { wsaHandle := some "h", windowExists := true, isReady := true,
        checkIntervalOn := true, screenshotIntervalOn := true,
        initInProgress := false, pendingWindowClosed := 0 }
      rfl (by simp) rfl rfl none).1,
   (wsa_closed_once_per_path
      { wsaHandle := some "h", windowExists := true, isReady := true,
        checkIntervalOn := true, screenshotIntervalOn := true,
        initInProgress := false, pendingWindowClosed := 0 }
      rfl (by simp) rfl rfl none).2.2.1⟩

/-- C10: a screenshot-poll tick emits a `screenshot` notification only for a
non-empty artifact path: `takeDofusTouchScreenshot` returns the empty string
on any adb failure and the loop emits only when the returned path is truthy,
so every emitted notification carries a non-empty path. -/
theorem wsa_screenshot_path_nonempty (s : WSAState) (tempDir : String)
    (capOk pullOk rmOk : Bool) (p : String)
    (h : WSAEmit.screenshot p ∈
      (stepEvent s (.screenshotTick tempDir capOk pullOk rmOk)).2) :
    p ≠ "" := by
  by_cases h1 : s.screenshotIntervalOn = false
  · simp [stepEvent, h1] at h
  · by_cases h2 : s.isReady = false
    · simp [stepEvent, h1, h2] at h
    · by_cases h3 : takeDofusTouchScreenshot tempDir capOk pullOk rmOk = ""
      · simp [stepEvent, h1, h2, h3] at h
      · simp [stepEvent, h1, h2, h3] at h
        rw [h]
        exact h3

/-- C10 (witness): a Ready controller with the screenshot interval running
and all adb steps succeeding emits the screenshot notification, and the
theorem yields that its path is non-empty. -/
theorem wsa_screenshot_path_nonempty_witness :
    "/tmp/dofustouch_screenshot.png" ≠ "" :=
  wsa_screenshot_path_nonempty
    { wsaHandle := some "h", windowExists := true, isReady := true,
      checkIntervalOn := true, screenshotIntervalOn := true,
      initInProgress := false, pendingWindowClosed := 0 }
    "/tmp" true true true "/tmp/dofustouch_screenshot.png" (by decide)

/-!
`Application.createWSAWindow()`.  The singleton field `_wsaWindow` is
modelled by an optional instance identity; the awaited requirement check and
the race of `init()` against the 30 s timeout are inputs.
-/

/-- Application state relevant to the WSA window singleton. -/
structure AppState where
  wsaWindow : Option Nat
  nextId : Nat
  deriving DecidableEq, Repr

/-- Awaited side effects of `createWSAWindow()`, in order. -/
inductive CreateEffect where
  | checkReqs : CreateEffect
  | constructInstance : CreateEffect
  | runInit : CreateEffect
  | runCleanup : CreateEffect
  deriving DecidableEq, Repr

/-- Model of `createWSAWindow()`: returns null off Windows; returns the
existing instance when `_wsaWindow` is non-null; otherwise checks the
requirements, constructs a `WSAWindow`, races `init()` against the timeout
(`initialized` is the race outcome), and on failure cleans up and resets the
field. -/
def createWSAWindow (platformWin32 : Bool) (st : AppState)
    (reqs : ReqResult) (initialized : Bool) :
    Option Nat × AppState × List CreateEffect :=
  if platformWin32 = false then (none, st, [])
  else
    match st.wsaWindow with
    | some w => (some w, st, [])
    | none =>
      if reqs.meetsRequirements = false then (none, st, [CreateEffect.checkReqs])
      else
        let w := st.nextId
        if initialized = false then
          (none, { wsaWindow := none, nextId := st.nextId + 1 },
            [CreateEffect.checkReqs, CreateEffect.constructInstance,
             CreateEffect.runInit, CreateEffect.runCleanup])
        else
          (some w, { wsaWindow := some w, nextId := st.nextId + 1 },
            [CreateEffect.checkReqs, CreateEffect.constructInstance,
             CreateEffect.runInit])

/-- C8: invoked while a WSA window instance already exists (in particular a
Ready one), `createWSAWindow()` returns that existing instance with the
application state unchanged and performs no awaited side effect: no
requirement check, no second instance construction, no install/launch
initialization, for every requirement result and init outcome.  (A non-null
`_wsaWindow` only ever arises on Windows, where the platform gate passes.) -/
theorem createWSAWindow_returns_existing (st : AppState) (w : Nat)
    (hw : st.wsaWindow = some w) (reqs : ReqResult) (initialized : Bool) :
    createWSAWindow true st reqs initialized = (some w, st, []) := by
  simp [createWSAWindow, hw]

/-- C8 (witness): the theorem at a concrete state holding instance 3, with a
requirement result that would pass and an init outcome that would succeed —
neither is consulted. -/
theorem createWSAWindow_returns_existing_witness :
    createWSAWindow true ⟨some 3, 4⟩ ⟨true, []⟩ true = (some 3, ⟨some 3, 4⟩, []) :=
  createWSAWindow_returns_existing ⟨some 3, 4⟩ 3 rfl ⟨true, []⟩ true

/-!
Native window query helpers (`findWindowByTitle`, `getWindowRect`).

The PowerShell invocation is modelled by its outcome: `.error e` when
`execAsync` rejects (caught, logged, null returned), `.ok out` with the raw
stdout otherwise.  `JSON.parse` is modelled by `jsonParse`, an executable
parser of the full JSON grammar (ECMA-404): `none` models `JSON.parse`
throwing, `some v` models it returning the value `v` — any JSON value, not
only the rectangle object the probe normally emits.  String and number
atoms keep their source lexemes (escape sequences are validated but not
decoded, numbers are not evaluated to floats); this changes only the
representation of parsed values, never whether a parse succeeds.
-/

/-- Skip JSON whitespace (the same four characters as `charIsWs`). -/
def skipWs (cs : List Char) : List Char := cs.dropWhile charIsWs

/-- Hex digit test for the JSON \u escape. -/
def charIsHex (c : Char) : Bool :=
  c.isDigit || ('a' ≤ c && c ≤ 'f') || ('A' ≤ c && c ≤ 'F')

/-- Characters allowed after a backslash in a JSON string (besides u). -/
def isSimpleEscape (c : Char) : Bool :=
  c = '"' || c = '\\' || c = '/' || c = 'b' || c = 'f' || c = 'n' || c = 'r' || c = 't'

/-- One JSON value as returned by `JSON.parse`, with string and number
atoms kept as their source lexemes. -/
inductive Json where
  | null : Json
  | boolean : Bool → Json
  | number : List Char → Json
  | strLit : List Char → Json
  | array : List Json → Json
  | object : List (List Char × Json) → Json
  deriving Repr

/-- Scan a JSON string literal body after the opening quote: validates the
escape grammar and the control-character exclusion, returns the raw lexeme
and the input after the closing quote. -/
def scanStringBody : List Char → Option (List Char × List Char)
  | [] => none
  | '"' :: rest => some ([], rest)
  | '\\' :: 'u' :: h1 :: h2 :: h3 :: h4 :: rest =>
    if charIsHex h1 && charIsHex h2 && charIsHex h3 && charIsHex h4 then
      match scanStringBody rest with
      | some r => some ('\\' :: 'u' :: h1 :: h2 :: h3 :: h4 :: r.1, r.2)
      | none => none
    else none
  | '\\' :: c :: rest =>
    if isSimpleEscape c then
      match scanStringBody rest with
      | some r => some ('\\' :: c :: r.1, r.2)
      | none => none
    else none
  | c :: rest =>
    if c.toNat < 32 then none
    else
      match scanStringBody rest with
      | some r => some (c :: r.1, r.2)
      | none => none

/-- Split off a maximal run of decimal digits. -/
def scanDigits (cs : List Char) : List Char × List Char :=
  (cs.takeWhile Char.isDigit, cs.dropWhile Char.isDigit)

/-- Scan a JSON number: optional minus, integer part without leading zeros,
optional fraction, optional exponent.  Returns the lexeme and the rest. -/
def scanNumber (cs : List Char) : Option (List Char × List Char) :=
  let sign : List Char × List Char :=
    match cs with
    | '-' :: rest => (['-'], rest)
    | _ => ([], cs)
  let intPart : Option (List Char × List Char) :=
    match sign.2 with
    | '0' :: rest => some (['0'], rest)
    | c :: _ =>
      if c.isDigit then some (scanDigits sign.2) else none
    | [] => none
  match intPart with
  | none => none
  | some ip =>
    let fracPart : Option (List Char × List Char) :=
      match ip.2 with
      | '.' :: rest =>
        let d := scanDigits rest
        if d.1.isEmpty then none else some ('.' :: d.1, d.2)
      | _ => some ([], ip.2)
    match fracPart with
    | none => none
    | some fp =>
      let expPart : Option (List Char × List Char) :=
        match fp.2 with
        | c :: rest =>
          if c = 'e' || c = 'E' then
            let se : List Char × List Char :=
              match rest with
              | '+' :: r2 => (['+'], r2)
              | '-' :: r2 => (['-'], r2)
              | _ => ([], rest)
            let d := scanDigits se.2
            if d.1.isEmpty then none else some (c :: (se.1 ++ d.1), d.2)
          else some ([], fp.2)
        | [] => some ([], fp.2)
      match expPart with
      | none => none
      | some ep => some (sign.1 ++ ip.1 ++ fp.1 ++ ep.1, ep.2)

mutual
/-- Parse one JSON value starting at `cs` (leading whitespace already
skipped).  The fuel decreases on every recursive call; since every other
call consumes at least one input character, `2 * length + 2` fuel always
suffices at top level. -/
def parseJsonValue : Nat → List Char → Option (Json × List Char)
  | 0, _ => none
  | fuel + 1, cs =>
    match cs with
    | 'n' :: 'u' :: 'l' :: 'l' :: rest => some (Json.null, rest)
    | 't' :: 'r' :: 'u' :: 'e' :: rest => some (Json.boolean true, rest)
    | 'f' :: 'a' :: 'l' :: 's' :: 'e' :: rest => some (Json.boolean false, rest)
    | '"' :: rest =>
      match scanStringBody rest with
      | some r => some (Json.strLit r.1, r.2)
      | none => none
    | '[' :: rest =>
      match skipWs rest with
      | ']' :: rest2 => some (Json.array [], rest2)
      | cs2 => parseJsonElems fuel cs2 []
    | '\x7b' :: rest =>
      match skipWs rest with
      | '\x7d' :: rest2 => some (Json.object [], rest2)
      | cs2 => parseJsonFields fuel cs2 []
    | _ =>
      match scanNumber cs with
      | some r => some (Json.number r.1, r.2)
      | none => none

/-- Parse the elements of a non-empty JSON array, accumulating in reverse. -/
def parseJsonElems : Nat → List Char → List Json → Option (Json × List Char)
  | 0, _, _ => none
  | fuel + 1, cs, acc =>
    match parseJsonValue fuel cs with
    | none => none
    | some (v, rest) =>
      match skipWs rest with
      | ',' :: rest2 => parseJsonElems fuel (skipWs rest2) (v :: acc)
      | ']' :: rest2 => some (Json.array (v :: acc).reverse, rest2)
      | _ => none

/-- Parse the members of a non-empty JSON object, accumulating in reverse. -/
def parseJsonFields : Nat → List Char → List (List Char × Json) →
    Option (Json × List Char)
  | 0, _, _ => none
  | fuel + 1, cs, acc =>
    match cs with
    | '"' :: rest =>
      match scanStringBody rest with
      | none => none
      | some key =>
        match skipWs key.2 with
        | ':' :: rest2 =>
          match parseJsonValue fuel (skipWs rest2) with
          | none => none
          | some vr =>
            match skipWs vr.2 with
            | ',' :: rest4 => parseJsonFields fuel (skipWs rest4) ((key.1, vr.1) :: acc)
            | '\x7d' :: rest4 => some (Json.object ((key.1, vr.1) :: acc).reverse, rest4)
            | _ => none
        | _ => none
    | _ => none
end

/-- Model of `JSON.parse`: optional surrounding whitespace around exactly
one JSON value. -/
def jsonParse (s : String) : Option Json :=
  match parseJsonValue (2 * s.data.length + 2) (skipWs s.data) with
  | some vr => if (skipWs vr.2).isEmpty then some vr.1 else none
  | none => none

/-- Model of `findWindowByTitle`: on shell error null; otherwise the trimmed
stdout is the handle unless it is empty or the literal sentinel `null`. -/
def findWindowByTitle (execResult : Except String String) : Option String :=
  match execResult with
  | .error _ => none
  | .ok out =>
    let handle := strTrim out
    if handle = "" then none
    else if handle = "null" then none
    else some handle

/-- Model of `getWindowRect`: on shell error null; otherwise the trimmed
stdout is passed to `JSON.parse` unless it is empty or the literal sentinel
`null`; the parsed value — whatever JSON value it is — is returned, and a
parse failure is caught and becomes null. -/
def getWindowRect (execResult : Except String String) : Option Json :=
  match execResult with
  | .error _ => none
  | .ok out =>
    let result := strTrim out
    if result = "" then none
    else if result = "null" then none
    else jsonParse result

/-- C9 (counterexample): the claimed "returns a parsed rectangle exactly
when the trimmed output is non-empty and not the literal string null" fails
both ways: the shell output `garbage` is non-empty after trimming and not
the sentinel, yet `getWindowRect` returns null (`JSON.parse` throws and the
catch yields null); and the output `42` satisfies the same guard but
returns the non-null, non-rectangle JSON value 42.  The third conjunct
shows a well-formed probe output parsing to the rectangle object. -/
theorem getWindowRect_nonjson_counterexample :
    (strTrim "garbage" ≠ "" ∧ strTrim "garbage" ≠ "null" ∧
      getWindowRect (.ok "garbage") = none) ∧
    (strTrim "42" ≠ "" ∧ strTrim "42" ≠ "null" ∧
      getWindowRect (.ok "42") = some (Json.number ['4', '2'])) ∧
    getWindowRect (.ok " \x7b \"X\": 1, \"Y\": -2, \"Width\": 30, \"Height\": 40 \x7d ") =
      some (Json.object
        [(['X'], Json.number ['1']), (['Y'], Json.number ['-', '2']),
         (['W', 'i', 'd', 't', 'h'], Json.number ['3', '0']),
         (['H', 'e', 'i', 'g', 'h', 't'], Json.number ['4', '0'])]) :=
  ⟨⟨by decide, by decide, by rfl⟩, ⟨by decide, by decide, by rfl⟩, by rfl⟩

/-- C9 (amended): both helpers are total and never propagate an exception:
on shell-execution error both return null; `findWindowByTitle` returns a
handle exactly when the trimmed output is non-empty and not the literal
string `null`, and that handle is the trimmed output; `getWindowRect`
returns a value exactly when the trimmed output is non-empty, not the
literal string `null`, and is valid JSON text, and that value is the
`JSON.parse` of the trimmed output — the rectangle object when the probe
emitted one, any other JSON value otherwise; in every remaining case
(execution error, empty output, the null sentinel, a JSON parse failure) it
returns null. -/
theorem windowQuery_helpers_total (e : String) (out : String) :
    findWindowByTitle (.error e) = none ∧
    getWindowRect (.error e) = none ∧
    (∀ h, findWindowByTitle (.ok out) = some h →
      h = strTrim out ∧ h ≠ "" ∧ h ≠ "null") ∧
    (strTrim out ≠ "" → strTrim out ≠ "null" →
      findWindowByTitle (.ok out) = some (strTrim out)) ∧
    ((getWindowRect (.ok out)).isSome ↔
      (strTrim out ≠ "" ∧ strTrim out ≠ "null" ∧ (jsonParse (strTrim out)).isSome)) ∧
    (strTrim out ≠ "" → strTrim out ≠ "null" →
      getWindowRect (.ok out) = jsonParse (strTrim out)) := by
  refine ⟨rfl, rfl, ?_, ?_, ?_, ?_⟩
  · intro h hcase
    by_cases h1 : strTrim out = ""
    · simp [findWindowByTitle, h1] at hcase
    · by_cases h2 : strTrim out = "null"
      · simp [findWindowByTitle, h1, h2] at hcase
      · simp [findWindowByTitle, h1, h2] at hcase
        exact ⟨hcase.symm, hcase ▸ h1, hcase ▸ h2⟩
  · intro h1 h2
    simp [findWindowByTitle, h1, h2]
  · by_cases h1 : strTrim out = ""
    · simp [getWindowRect, h1]
    · by_cases h2 : strTrim out = "null"
      · simp [getWindowRect, h1, h2]
      · simp [getWindowRect, h1, h2]
  · intro h1 h2
    simp [getWindowRect, h1, h2]

/-- C9 (witness): the amended theorem at a concrete handle-style output with
surrounding whitespace, and at the rectangle probe output. -/
theorem windowQuery_helpers_total_witness :
    findWindowByTitle (.error "boom") = none ∧
    findWindowByTitle (.ok " 132456 ") = some (strTrim " 132456 ") ∧
    getWindowRect (.ok "\x7b\"X\":1,\"Y\":2,\"Width\":3,\"Height\":4\x7d") =
      jsonParse (strTrim "\x7b\"X\":1,\"Y\":2,\"Width\":3,\"Height\":4\x7d") :=
  ⟨(windowQuery_helpers_total "boom" " 132456 ").1,
   (windowQuery_helpers_total "boom" " 132456 ").2.2.2.1 (by decide) (by decide),
   (windowQuery_helpers_total "boom"
      "\x7b\"X\":1,\"Y\":2,\"Width\":3,\"Height\":4\x7d").2.2.2.2.2
      (by decide) (by decide)⟩

end Lindo
